import Mathlib

/-!
Shallow embedding of the `alert-manager-api` Rust crate (files `src/types.rs`,
`src/errors.rs`, `src/client.rs`) and proofs about its spec claims.

Modelling conventions:
* `chrono::DateTime<Utc>` instants are abstract; they are modelled as `Nat`.
  Calls to `Utc::now()` become an explicit `now` parameter of the operation
  that performs them.
* `std::collections::HashMap<String, String>` is modelled as an association
  list with at most one live entry per key: `insert` replaces the first entry
  with the given key or appends, `get` returns the first matching entry.
* The external crates (`reqwest`, `reqwest_middleware`, `url`, HTTP status
  semantics) are modelled only as far as the crate under verification
  observes them, with each modelling decision documented at the definition.
-/

namespace AlertManagerApi

/-- Abstract wall-clock instant standing in for `chrono::DateTime<Utc>`. -/
abbrev DateTime := Nat

/-- Association-list model of `std::collections::HashMap<String, String>`. -/
abbrev StrMap := List (String × String)

/-- Model of `HashMap::new()`. -/
def StrMap.empty : StrMap := []

/-- Model of `HashMap::get`: first entry with the given key. -/
def StrMap.get : StrMap → String → Option String
  | [], _ => none
  | p :: rest, k => if p.1 = k then some p.2 else StrMap.get rest k

/-- Model of `HashMap::insert`: replace the entry with the given key when
present, otherwise add a new entry. -/
def StrMap.insert : StrMap → String → String → StrMap
  | [], k, v => [(k, v)]
  | p :: rest, k, v =>
      if p.1 = k then (k, v) :: rest else p :: StrMap.insert rest k v

/-- Embedding of `enum AlertSeverity` from `src/types.rs`. -/
inductive AlertSeverity where
  | Critical
  | Warning
  | Info
deriving DecidableEq

/-- Embedding of `impl Display for AlertSeverity` from `src/types.rs`:
each variant renders to its lowercase name. -/
def AlertSeverity.display : AlertSeverity → String
  | AlertSeverity.Critical => "critical"
  | AlertSeverity.Warning => "warning"
  | AlertSeverity.Info => "info"

/-- Embedding of `struct Alert` from `src/types.rs`. -/
structure Alert where
  labels : StrMap
  annotations : StrMap
  starts_at : Option DateTime
  ends_at : Option DateTime
  generator_url : Option String

/-- Embedding of `Alert::new` from `src/types.rs`; `now` stands for the
`Utc::now()` call made inside the constructor. -/
def Alert.new (now : DateTime) (alertname : String) : Alert :=
  { labels := StrMap.insert StrMap.empty "alertname" alertname
    annotations := StrMap.empty
    starts_at := some now
    ends_at := none
    generator_url := none }

/-- Embedding of `Alert::with_label` from `src/types.rs`. -/
def Alert.with_label (a : Alert) (key value : String) : Alert :=
  { a with labels := StrMap.insert a.labels key value }

/-- Embedding of `Alert::with_severity` from `src/types.rs`: adds a
`severity` label whose value is the `Display` rendering of the severity. -/
def Alert.with_severity (a : Alert) (severity : AlertSeverity) : Alert :=
  Alert.with_label a "severity" (AlertSeverity.display severity)

/-- Embedding of `Alert::resolve` from `src/types.rs`; `now` stands for the
`Utc::now()` call made inside. -/
def Alert.resolve (a : Alert) (now : DateTime) : Alert :=
  { a with ends_at := some now }

/-- Embedding of `Alert::alertname` from `src/types.rs`. -/
def Alert.alertname (a : Alert) : Option String :=
  StrMap.get a.labels "alertname"

/-- Embedding of `impl Default for Alert` from `src/types.rs`; `now` stands
for the `Utc::now()` call made inside. -/
def Alert.default (now : DateTime) : Alert :=
  { labels := StrMap.empty
    annotations := StrMap.empty
    starts_at := some now
    ends_at := none
    generator_url := none }

/-- JSON values, used to model `serde_json` output. -/
inductive Json where
  | null
  | str (s : String)
  | obj (fields : List (String × Json))
  | arr (items : List Json)

/-- Stand-in for the RFC 3339 rendering of a timestamp; the claims only
depend on which fields are present, not on the exact text. -/
def renderTime (t : DateTime) : String := toString t

/-- Serialization of a `HashMap<String, String>` as a JSON object. -/
def Json.ofStrMap (m : StrMap) : Json :=
  Json.obj (m.map (fun p => (p.1, Json.str p.2)))

/-- One optional serde field: absent options produce no field at all
(`skip_serializing_if = "Option::is_none"`). -/
def optJsonField (name : String) (v : Option Json) : List (String × Json) :=
  match v with
  | none => []
  | some j => [(name, j)]

/-- Embedding of the `serde::Serialize` derive on `Alert`
(`rename_all = "camelCase"`, `skip_serializing_if = "Option::is_none"` on the
three optional fields): the list of emitted JSON object fields in
declaration order. Note serde's camelCase rule renders `generator_url` as
`generatorUrl`. -/
def Alert.jsonFields (a : Alert) : List (String × Json) :=
  [("labels", Json.ofStrMap a.labels), ("annotations", Json.ofStrMap a.annotations)]
    ++ optJsonField "startsAt" (a.starts_at.map (fun t => Json.str (renderTime t)))
    ++ optJsonField "endsAt" (a.ends_at.map (fun t => Json.str (renderTime t)))
    ++ optJsonField "generatorUrl" (a.generator_url.map Json.str)

/-- Serialization of one alert as a JSON object. -/
def Alert.toJson (a : Alert) : Json := Json.obj a.jsonFields

/-- First field with the given name in a serialized JSON object. -/
def fieldValue : List (String × Json) → String → Option Json
  | [], _ => none
  | p :: rest, k => if p.1 = k then some p.2 else fieldValue rest k

/-- Model of `reqwest::Error` as far as `is_retryable` observes it: the two
predicates `is_connect()` and `is_timeout()` consulted by `src/errors.rs`.
A builder error ("malformed request construction") has both flags false. -/
structure ReqwestError where
  is_connect : Bool
  is_timeout : Bool
deriving DecidableEq

/-- Model of `reqwest_middleware::Error`: either a middleware-level failure
(whose `anyhow` cause chain may or may not expose a `reqwest::Error` at its
head) or a wrapped `reqwest::Error`. -/
inductive MiddlewareError where
  | Middleware (cause : Option ReqwestError)
  | Reqwest (e : ReqwestError)
deriving DecidableEq

/-- Model of the `StdError::source(source)` call followed by
`downcast_ref::<reqwest::Error>()` in `AlertmanagerError::is_retryable`
(`src/errors.rs`): for the `Reqwest` variant, thiserror's `#[from]` makes
the wrapped `reqwest::Error` the source, so the downcast yields it; for the
`Middleware` variant it yields the `reqwest::Error` heading the `anyhow`
chain when there is one, and `none` otherwise (no source, or a source of
another type). -/
def MiddlewareError.sourceReqwest : MiddlewareError → Option ReqwestError
  | MiddlewareError.Middleware cause => cause
  | MiddlewareError.Reqwest e => some e

/-- Embedding of `enum AlertmanagerError` from `src/errors.rs`. The payloads
of `BuildHttpClient` and `Serialize` are never inspected by the crate, so
they are omitted. -/
inductive AlertmanagerError where
  | BuildHttpClient
  | Request (src : MiddlewareError)
  | Serialize
  | Api (status : Nat) (message : String)
deriving DecidableEq

/-- Embedding of `AlertmanagerError::is_retryable` from `src/errors.rs`. -/
def AlertmanagerError.is_retryable : AlertmanagerError → Bool
  | AlertmanagerError.Request src =>
      match MiddlewareError.sourceReqwest src with
      | some err => err.is_connect || err.is_timeout
      | none => false
  | AlertmanagerError.Api status _ => decide (500 ≤ status)
  | _ => false

/-- Model of `url::Url` as far as the crate observes it: the scheme plus
authority part (e.g. `http://localhost:9093`) and the path. -/
structure Url where
  scheme_authority : String
  path : String
deriving DecidableEq

/-- Model of `url::Url::join` for references that are absolute paths
(leading `/`) — the only form used by `push_alerts`: per RFC 3986 §5.3 the
reference's path replaces the base URL's path entirely. -/
def Url.join (u : Url) (ref : String) : Url :=
  { u with path := ref }

/-- Textual form of a URL. -/
def Url.render (u : Url) : String := u.scheme_authority ++ u.path

/-- Model of `reqwest::StatusCode::is_success`: the 2xx range. -/
def statusIsSuccess (status : Nat) : Bool := decide (200 ≤ status ∧ status < 300)

/-- Outcome of the single `send().await` performed by `push_alerts`: either
the transport fails before any response (yielding a
`reqwest_middleware::Error`), or a response arrives with a status code and a
body whose text read may fail (`none` models an unreadable body, which
`unwrap_or_default()` turns into the empty string). -/
inductive SendOutcome where
  | failure (e : MiddlewareError)
  | response (status : Nat) (body : Option String)

/-- Result of a `push_alerts` call together with the URLs of the HTTP
requests it issued, in order. -/
structure PushResult where
  result : Except AlertmanagerError Unit
  requests : List Url

/-- Embedding of `AlertmanagerClient::push_alerts` from `src/client.rs`.
The client state is its `api_url`; the network is modelled by the
`outcome` the single POST would produce. The requests the call issues are
recorded so that the no-network-call short-circuit is observable. -/
def AlertmanagerClient.push_alerts (api_url : Url) (alerts : List Alert)
    (outcome : SendOutcome) : PushResult :=
  if alerts.isEmpty then { result := Except.ok (), requests := [] }
  else
    let url := Url.join api_url "/api/v2/alerts"
    match outcome with
    | SendOutcome.failure e =>
        { result := Except.error (AlertmanagerError.Request e), requests := [url] }
    | SendOutcome.response status body =>
        if statusIsSuccess status then { result := Except.ok (), requests := [url] }
        else
          { result := Except.error (AlertmanagerError.Api status (body.getD ""))
            requests := [url] }

/-- Embedding of `AlertmanagerClient::push_alert` from `src/client.rs`. -/
def AlertmanagerClient.push_alert (api_url : Url) (alert : Alert)
    (outcome : SendOutcome) : PushResult :=
  AlertmanagerClient.push_alerts api_url [alert] outcome

/-! Helper lemmas. -/

/-- Lookup after insert: the inserted key now maps to the new value and all
other keys are untouched. -/
theorem StrMap.get_insert (m : StrMap) (k v k' : String) :
    StrMap.get (StrMap.insert m k v) k' =
      if k' = k then some v else StrMap.get m k' := by
  induction m with
  | nil =>
      by_cases h : k' = k
      · simp [StrMap.insert, StrMap.get, h]
      · simp [StrMap.insert, StrMap.get, h, Ne.symm h]
  | cons p rest ih =>
      by_cases hp : p.1 = k
      · by_cases h : k' = k
        · simp [StrMap.insert, StrMap.get, hp, h]
        · simp [StrMap.insert, StrMap.get, hp, h, Ne.symm h]
      · by_cases hq : p.1 = k'
        · have hk : ¬ k' = k := fun h => hp (hq.trans h)
          simp [StrMap.insert, StrMap.get, hp, hq, hk]
        · simp [StrMap.insert, StrMap.get, hp, hq, ih]

/-! Claim theorems. -/

/-- C7: `Alert::new` produces the singleton `alertname` label, empty
annotations, a present `starts_at` equal to the construction instant, absent
`ends_at` and `generator_url`, and `alertname()` reads the name back. -/
theorem alert_new_fields (now : DateTime) (n : String) :
    (Alert.new now n).labels = [("alertname", n)] ∧
    (Alert.new now n).annotations = [] ∧
    (Alert.new now n).starts_at = some now ∧
    (Alert.new now n).ends_at = none ∧
    (Alert.new now n).generator_url = none ∧
    Alert.alertname (Alert.new now n) = some n := by
  refine ⟨rfl, rfl, rfl, rfl, rfl, ?_⟩
  simp [Alert.new, Alert.alertname, StrMap.get, StrMap.insert, StrMap.empty]

/-- C8: inserting the same label key twice keeps the last value and leaves
every other key's binding unchanged. -/
theorem with_label_last_write_wins (a : Alert) (k v1 v2 k' : String) :
    StrMap.get (Alert.with_label (Alert.with_label a k v1) k v2).labels k' =
      if k' = k then some v2 else StrMap.get a.labels k' := by
  by_cases h : k' = k <;>
    simp [Alert.with_label, StrMap.get_insert, h]

/-- C9: `resolve` makes `ends_at` present and leaves `starts_at`, labels,
annotations and `generator_url` exactly as they were. -/
theorem resolve_preserves_fields (a : Alert) (now : DateTime) :
    (Alert.resolve a now).ends_at = some now ∧
    (Alert.resolve a now).starts_at = a.starts_at ∧
    (Alert.resolve a now).labels = a.labels ∧
    (Alert.resolve a now).annotations = a.annotations ∧
    (Alert.resolve a now).generator_url = a.generator_url :=
  ⟨rfl, rfl, rfl, rfl, rfl⟩

/-- C10: the `Default` constructor yields an alert with a completely empty
label map — so `alertname()` returns `none` — while `starts_at` is present
(the construction instant) and `ends_at`, `generator_url` are absent. -/
theorem default_alert_missing_alertname (now : DateTime) :
    (Alert.default now).labels = [] ∧
    Alert.alertname (Alert.default now) = none ∧
    (Alert.default now).annotations = [] ∧
    (Alert.default now).starts_at = some now ∧
    (Alert.default now).ends_at = none ∧
    (Alert.default now).generator_url = none := by
  refine ⟨rfl, ?_, rfl, rfl, rfl, rfl⟩
  simp [Alert.default, Alert.alertname, StrMap.get, StrMap.empty]

/-- C1: a `Request` error is retryable exactly when the underlying cause
exposed by the source-and-downcast step is a `reqwest::Error` flagged as a
connection failure or a timeout; any other cause (builder error with both
flags false, middleware abort with no reqwest cause) is not retryable. -/
theorem request_retryable_iff_connect_or_timeout (e : MiddlewareError) :
    (AlertmanagerError.Request e).is_retryable = true ↔
      (∃ r, MiddlewareError.sourceReqwest e = some r ∧
        (r.is_connect = true ∨ r.is_timeout = true)) := by
  cases e with
  | Middleware cause =>
      cases cause with
      | none => simp [AlertmanagerError.is_retryable, MiddlewareError.sourceReqwest]
      | some r =>
          simp [AlertmanagerError.is_retryable, MiddlewareError.sourceReqwest,
            Bool.or_eq_true]
  | Reqwest r =>
      simp [AlertmanagerError.is_retryable, MiddlewareError.sourceReqwest,
        Bool.or_eq_true]

/-- C2: an `Api` error is retryable exactly when its status is at least 500,
whatever the message; in particular status 400 is not retryable and status
503 is. -/
theorem api_retryable_iff_server_status :
    (∀ (status : Nat) (message : String),
        (AlertmanagerError.Api status message).is_retryable = decide (500 ≤ status)) ∧
    (AlertmanagerError.Api 400 "Bad request").is_retryable = false ∧
    (AlertmanagerError.Api 503 "Service unavailable").is_retryable = true := by
  refine ⟨fun status message => rfl, by decide, by decide⟩

/-- C3: on a non-empty batch, when a response is obtained a 2xx status
yields success and any other status yields an `Api` error carrying that
status and the body text, the empty string when the body was unreadable. -/
theorem push_alerts_response_classification (c : Url) (alerts : List Alert)
    (s : Nat) (b : Option String) (h : alerts ≠ []) :
    (AlertmanagerClient.push_alerts c alerts (SendOutcome.response s b)).result =
      if 200 ≤ s ∧ s < 300 then Except.ok ()
      else Except.error (AlertmanagerError.Api s (b.getD "")) := by
  have he : alerts.isEmpty = false := by
    cases alerts with
    | nil => exact absurd rfl h
    | cons x xs => rfl
  unfold AlertmanagerClient.push_alerts
  rw [he]
  simp only [Bool.false_eq_true, if_false, statusIsSuccess]
  by_cases hs : 200 ≤ s ∧ s < 300 <;> simp [hs]

/-- Closed instance for C3: a 400 response with body text yields the
corresponding `Api` error. -/
theorem push_alerts_response_classification_witness :
    ([Alert.new 0 "TestAlert"] : List Alert) ≠ [] ∧
    (AlertmanagerClient.push_alerts (Url.mk "http://localhost:9093" "")
        [Alert.new 0 "TestAlert"] (SendOutcome.response 400 (some "Bad request"))).result =
      Except.error (AlertmanagerError.Api 400 "Bad request") := by
  refine ⟨by simp, ?_⟩
  rw [push_alerts_response_classification (Url.mk "http://localhost:9093" "")
    [Alert.new 0 "TestAlert"] 400 (some "Bad request") (by simp)]
  simp

/-- C4: the empty batch short-circuits: success, and no request issued. -/
theorem push_alerts_empty_short_circuit (c : Url) (outcome : SendOutcome) :
    AlertmanagerClient.push_alerts c [] outcome =
      { result := Except.ok (), requests := [] } :=
  rfl

/-- C5 counterexample: for the base URL `http://host/am` the single request
goes to `http://host/api/v2/alerts` — the absolute-path join replaces the
base URL's path — which differs from `{baseURL}/api/v2/alerts`
(`http://host/am/api/v2/alerts`). -/
theorem push_alerts_target_counterexample :
    ((AlertmanagerClient.push_alerts (Url.mk "http://host" "/am")
        [Alert.new 0 "A"] (SendOutcome.response 200 none)).requests.map Url.render
      = ["http://host/api/v2/alerts"]) ∧
    (Url.render (Url.mk "http://host" "/am") ++ "/api/v2/alerts"
      = "http://host/am/api/v2/alerts") ∧
    ¬ ((AlertmanagerClient.push_alerts (Url.mk "http://host" "/am")
        [Alert.new 0 "A"] (SendOutcome.response 200 none)).requests.map Url.render
      = [Url.render (Url.mk "http://host" "/am") ++ "/api/v2/alerts"]) := by
  refine ⟨by decide, by decide, by decide⟩

/-- C5 (amended): on a non-empty batch exactly one POST is issued, to the
base URL with its path replaced by `/api/v2/alerts` (RFC 3986 absolute-path
join); the resulting URL is the base's scheme-plus-authority followed by
`/api/v2/alerts`, which coincides with `{baseURL}/api/v2/alerts` only when
the base URL's own path is empty. -/
theorem push_alerts_single_request_endpoint (c : Url) (alerts : List Alert)
    (outcome : SendOutcome) (h : alerts ≠ []) :
    (AlertmanagerClient.push_alerts c alerts outcome).requests =
      [Url.join c "/api/v2/alerts"] ∧
    Url.render (Url.join c "/api/v2/alerts") =
      c.scheme_authority ++ "/api/v2/alerts" := by
  have he : alerts.isEmpty = false := by
    cases alerts with
    | nil => exact absurd rfl h
    | cons x xs => rfl
  refine ⟨?_, rfl⟩
  unfold AlertmanagerClient.push_alerts
  rw [he]
  simp only [Bool.false_eq_true, if_false]
  cases outcome with
  | failure e => rfl
  | response status body =>
      by_cases hs : statusIsSuccess status = true <;> simp [hs]

/-- Closed instance for C5 (amended): one request to
`http://localhost:9093/api/v2/alerts` for a one-alert batch. -/
theorem push_alerts_single_request_endpoint_witness :
    ([Alert.new 0 "A"] : List Alert) ≠ [] ∧
    (AlertmanagerClient.push_alerts (Url.mk "http://localhost:9093" "")
        [Alert.new 0 "A"] (SendOutcome.response 200 none)).requests =
      [Url.mk "http://localhost:9093" "/api/v2/alerts"] ∧
    Url.render (Url.join (Url.mk "http://localhost:9093" "") "/api/v2/alerts") =
      "http://localhost:9093" ++ "/api/v2/alerts" := by
  have h := push_alerts_single_request_endpoint (Url.mk "http://localhost:9093" "")
    [Alert.new 0 "A"] (SendOutcome.response 200 none) (by simp)
  exact ⟨by simp, h.1, h.2⟩

/-- C6: the serialized alert object always carries `labels` and
`annotations` (as objects of the respective maps), carries each of
`startsAt`, `endsAt` and the generator-URL field exactly when the
corresponding option is set (omitted entirely otherwise), never contains a
JSON null, uses only the camelCase field names, and an alert built by
`with_severity` serializes the severity inside `labels` as the lowercase
enumeration name, e.g. `Warning` as `"severity":"warning"`. -/
theorem alert_serialization_shape (a : Alert) (now : DateTime) (n : String)
    (sev : AlertSeverity) :
    fieldValue (Alert.jsonFields a) "labels" = some (Json.ofStrMap a.labels) ∧
    fieldValue (Alert.jsonFields a) "annotations" = some (Json.ofStrMap a.annotations) ∧
    fieldValue (Alert.jsonFields a) "startsAt"
      = a.starts_at.map (fun t => Json.str (renderTime t)) ∧
    fieldValue (Alert.jsonFields a) "endsAt"
      = a.ends_at.map (fun t => Json.str (renderTime t)) ∧
    fieldValue (Alert.jsonFields a) "generatorUrl"
      = a.generator_url.map Json.str ∧
    Json.null ∉ (Alert.jsonFields a).map Prod.snd ∧
    (((Alert.jsonFields a).map Prod.fst).all
      (fun k => ["labels", "annotations", "startsAt", "endsAt", "generatorUrl"].contains k)
      = true) ∧
    (Alert.with_severity (Alert.new now n) sev).labels
      = [("alertname", n), ("severity", AlertSeverity.display sev)] ∧
    fieldValue (Alert.jsonFields (Alert.with_severity (Alert.new now n) AlertSeverity.Warning)) "labels"
      = some (Json.obj [("alertname", Json.str n), ("severity", Json.str "warning")]) := by
  obtain ⟨al, aa, sa, ea, ga⟩ := a
  refine ⟨?_, ?_, ?_, ?_, ?_, ?_, ?_, ?_, ?_⟩
  · cases sa <;> cases ea <;> cases ga <;>
      simp [Alert.jsonFields, optJsonField, fieldValue]
  · cases sa <;> cases ea <;> cases ga <;>
      simp [Alert.jsonFields, optJsonField, fieldValue]
  · cases sa <;> cases ea <;> cases ga <;>
      simp [Alert.jsonFields, optJsonField, fieldValue]
  · cases sa <;> cases ea <;> cases ga <;>
      simp [Alert.jsonFields, optJsonField, fieldValue]
  · cases sa <;> cases ea <;> cases ga <;>
      simp [Alert.jsonFields, optJsonField, fieldValue]
  · cases sa <;> cases ea <;> cases ga <;>
      simp [Alert.jsonFields, optJsonField, Json.ofStrMap]
  · cases sa <;> cases ea <;> cases ga <;>
      simp [Alert.jsonFields, optJsonField]
  · simp [Alert.with_severity, Alert.with_label, Alert.new, StrMap.insert, StrMap.empty]
  · simp [Alert.with_severity, Alert.with_label, Alert.new, StrMap.insert,
      StrMap.empty, Alert.jsonFields, optJsonField, fieldValue, Json.ofStrMap,
      AlertSeverity.display]

end AlertManagerApi
